import Mathlib

/-!
Verification of the configuration-resolution contract for the Spark-Hadoop
repository's JupyterLab configuration file
(`src/config_files/jupyterlab/jupyter_notebook_config.py`).

The repository ships a single configuration file that assigns values to named
options of an external notebook server.  The specification's core is the
Settings Resolver: declared options with defaults and validators, layered
override sources applied in increasing precedence, all-or-nothing validation,
warnings for unknown keys.  The resolver itself is not part of the shipped
sources (only the configuration file that feeds it is), so the resolver below
is modelled from the specification; the concrete option values are taken from
the shipped configuration file.
-/

set_option autoImplicit false

namespace SettingsResolver

/-- A raw configuration value: boolean, integer, or string. -/
inductive Value where
  | VBool : Bool → Value
  | VInt : Int → Value
  | VStr : String → Value
deriving DecidableEq, Repr

/-- Modelled from the spec: an Option (spec §3) is "a named setting with a
semantic type …, a default value, and an optional validation predicate".  The
name lives in the `OptionSet` association list; `constraint` is the textual
description of the validation rule, reported in a `ConfigurationError`.
Named `ConfigOption` because `Option` is taken by Lean. -/
structure ConfigOption where
  default : Value
  validator : Value → Bool
  constraint : String

/-- Modelled from the spec: an OptionSet (spec §3) is "an ordered mapping from
option name to Option"; lookup is by name. -/
abbrev OptionSet := List (String × ConfigOption)

/-- Modelled from the spec: the contents of one override source, "a mapping
from option name to raw value" (spec §4.1). -/
abbrev SourceMap := List (String × Value)

/-- Modelled from the spec: an override source that may be missing ("absent
file", spec §7); `none` is an absent source. -/
abbrev OverrideSource := Option SourceMap

/-- Modelled from the spec: reading a missing override source "is not an
error — resolution falls back to defaults" (spec §7): an absent source
defines no options. -/
def fetch : OverrideSource → SourceMap
  | some s => s
  | none => []

/-- First value bound to name `n` in an association list (lookup is by name,
spec §3). -/
def lookupName {α : Type} (n : String) : List (String × α) → Option α
  | [] => none
  | p :: rest => if p.1 = n then some p.2 else lookupName n rest

/-- Modelled from the spec: the value an ordered list of override sources
supplies for name `n` — sources are "applied in increasing precedence (later
sources win on conflict)" (spec §4.1), so later sources are consulted first. -/
def lookupOverride (n : String) : List SourceMap → Option Value
  | [] => none
  | s :: rest =>
    match lookupOverride n rest with
    | some v => some v
    | none => lookupName n s

/-- Modelled from the spec: the resolved value of one option — "the resolver
takes the value from the highest-precedence source that defines it; if no
source defines it, the declared default is used" (spec §4.1). -/
def resolvedValue (ss : List SourceMap) (n : String) (o : ConfigOption) : Value :=
  match lookupOverride n ss with
  | some v => v
  | none => o.default

/-- Modelled from the spec: a fatal `ConfigurationError` "naming the offending
option, the invalid value, and the constraint violated" (spec §4.1). -/
structure ConfigurationError where
  optionName : String
  invalidValue : Value
  constraint : String
deriving DecidableEq, Repr

/-- Modelled from the spec: a non-fatal `UnknownOptionWarning` for an
unrecognized key in an override source (spec §7). -/
structure UnknownOptionWarning where
  key : String
deriving DecidableEq, Repr

/-- Modelled from the spec: a ConfigurationSnapshot is "an immutable mapping
from option name to resolved value" (spec §3). -/
abbrev ConfigurationSnapshot := List (String × Value)

/-- The snapshot that assigns every declared option its resolved value. -/
def resolvedSnapshot (os : OptionSet) (ss : List SourceMap) : ConfigurationSnapshot :=
  os.map fun p => (p.1, resolvedValue ss p.1 p.2)

/-- The snapshot that assigns every declared option its declared default. -/
def defaultsSnapshot (os : OptionSet) : ConfigurationSnapshot :=
  os.map fun p => (p.1, p.2.default)

/-- Modelled from the spec: resolve and validate each declared option in
order.  "Each resolved value is passed through its Option's validator.  On
failure, the resolver fails with a `ConfigurationError` …; resolution is
all-or-nothing" (spec §4.1). -/
def resolveOptions (ss : List SourceMap) : OptionSet → Except ConfigurationError ConfigurationSnapshot
  | [] => Except.ok []
  | (n, o) :: rest =>
    let v := resolvedValue ss n o
    if o.validator v then
      match resolveOptions ss rest with
      | Except.ok snap => Except.ok ((n, v) :: snap)
      | Except.error e => Except.error e
    else
      Except.error ⟨n, v, o.constraint⟩

/-- All keys appearing in any override source, in order. -/
def sourceKeys : List SourceMap → List String
  | [] => []
  | s :: rest => s.map Prod.fst ++ sourceKeys rest

/-- Modelled from the spec: one `UnknownOptionWarning` per unrecognized key —
"names not in OptionSet … are reported as a `UnknownOptionWarning` but do not
abort resolution" (spec §4.1, §7). -/
def unknownWarnings (os : OptionSet) (ss : List SourceMap) : List UnknownOptionWarning :=
  (((sourceKeys ss).dedup).filter (fun k => (lookupName k os).isNone)).map
    (fun k => ⟨k⟩)

/-- Modelled from the spec: "mutually exclusive options both set" is a
`ConfigurationError` (spec §7); a pair is violated when both of its names are
set by some override source. -/
def exclusionViolated (ss : List SourceMap) (q : String × String) : Bool :=
  (lookupOverride q.1 ss).isSome && (lookupOverride q.2 ss).isSome

/-- Modelled from the spec: the Settings Resolver (spec §4.1).  From an
OptionSet, a list of mutually-exclusive name pairs, and an ordered list of
override sources (later sources have higher precedence), produce either a
fully populated, validated ConfigurationSnapshot together with the unknown-key
warnings, or a fatal ConfigurationError; no partial snapshot is exposed on
failure. -/
def resolveMaps (os : OptionSet) (excl : List (String × String))
    (ss : List SourceMap) :
    Except ConfigurationError (ConfigurationSnapshot × List UnknownOptionWarning) :=
  match excl.find? (exclusionViolated ss) with
  | some q =>
    Except.error ⟨q.1, (lookupOverride q.1 ss).getD (Value.VStr ""),
      "mutually exclusive with " ++ q.2⟩
  | none =>
    match resolveOptions ss os with
    | Except.ok snap => Except.ok (snap, unknownWarnings os ss)
    | Except.error e => Except.error e

/-- Modelled from the spec: the resolver's entry point reads each override
source (an absent source contributing nothing) and resolves against the
resulting maps. -/
def resolve (os : OptionSet) (excl : List (String × String))
    (srcs : List OverrideSource) :
    Except ConfigurationError (ConfigurationSnapshot × List UnknownOptionWarning) :=
  resolveMaps os excl (srcs.map fetch)

/-- A value is a boolean. -/
def isBoolVal : Value → Bool
  | Value.VBool _ => true
  | _ => false

/-- A value is a string. -/
def isStrVal : Value → Bool
  | Value.VStr _ => true
  | _ => false

/-- A value is an integer in the listener-port range 1–65535 (spec §6). -/
def inPortRange : Value → Bool
  | Value.VInt i => decide (1 ≤ i) && decide (i ≤ 65535)
  | _ => false

/-- A value is one of the enumerated log levels
DEBUG, INFO, WARNING, ERROR, CRITICAL (spec §3, §6). -/
def inLogLevels : Value → Bool
  | Value.VStr s =>
    s = "DEBUG" || s = "INFO" || s = "WARNING" || s = "ERROR" || s = "CRITICAL"
  | _ => false

/-- A value is an integer ≥ 0 (idle timeout; 0 disables culling, spec §6). -/
def nonNegInt : Value → Bool
  | Value.VInt i => decide (0 ≤ i)
  | _ => false

/-- A value is an integer > 0 (cull check interval, spec §6). -/
def posInt : Value → Bool
  | Value.VInt i => decide (0 < i)
  | _ => false

/-- The recognized options of this domain (spec §6), named as the shipped
configuration file names them; defaults are the documented defaults in
`jupyter_notebook_config.py` and spec §6. -/
def recognizedOptions : OptionSet :=
  [("ip", ⟨Value.VStr "localhost", isStrVal, "string"⟩),
   ("port", ⟨Value.VInt 8888, inPortRange, "range 1-65535"⟩),
   ("open_browser", ⟨Value.VBool true, isBoolVal, "boolean"⟩),
   ("token", ⟨Value.VStr "", isStrVal, "string"⟩),
   ("password", ⟨Value.VStr "", isStrVal, "string"⟩),
   ("password_required", ⟨Value.VBool false, isBoolVal, "boolean"⟩),
   ("notebook_dir", ⟨Value.VStr "", isStrVal, "string"⟩),
   ("allow_root", ⟨Value.VBool false, isBoolVal, "boolean"⟩),
   ("default_url", ⟨Value.VStr "/lab", isStrVal, "string"⟩),
   ("terminals_enabled", ⟨Value.VBool true, isBoolVal, "boolean"⟩),
   ("log_level", ⟨Value.VStr "INFO", inLogLevels,
     "one of DEBUG INFO WARNING ERROR CRITICAL"⟩),
   ("cull_idle_timeout", ⟨Value.VInt 0, nonNegInt, "integer at least 0"⟩),
   ("cull_interval", ⟨Value.VInt 300, posInt, "integer greater than 0"⟩),
   ("cull_connected", ⟨Value.VBool false, isBoolVal, "boolean"⟩),
   ("allow_origin", ⟨Value.VStr "", isStrVal, "string"⟩),
   ("allow_credentials", ⟨Value.VBool false, isBoolVal, "boolean"⟩),
   ("delete_to_trash", ⟨Value.VBool true, isBoolVal, "boolean"⟩)]

/-- The mutually-constrained authentication options: token and password
(spec §6, §7). -/
def authExclusive : List (String × String) := [("token", "password")]

/-- The assignments of the shipped configuration file
`src/config_files/jupyterlab/jupyter_notebook_config.py`, in file order:
`c.ServerApp.ip = '0.0.0.0'` (line 36), `c.ServerApp.port = 8888` (line 45),
`c.ServerApp.open_browser = False` (line 52), `c.ServerApp.default_url = '/lab'`
(line 111), `c.ServerApp.terminals_enabled = True` (line 117),
`c.ServerApp.log_level = 'INFO'` (line 168),
`c.FileContentsManager.delete_to_trash = True` (line 174).  All other
attributes, including `token` and `password`, appear only in comments. -/
def shippedConfig : SourceMap :=
  [("ip", Value.VStr "0.0.0.0"),
   ("port", Value.VInt 8888),
   ("open_browser", Value.VBool false),
   ("default_url", Value.VStr "/lab"),
   ("terminals_enabled", Value.VBool true),
   ("log_level", Value.VStr "INFO"),
   ("delete_to_trash", Value.VBool true)]

/-! Helper lemmas about lookup, resolution, and warnings. -/

theorem lookupName_eq_none_forall {α : Type} (k : String) (l : List (String × α))
    (h : lookupName k l = none) : ∀ p ∈ l, p.1 ≠ k := by
  induction l with
  | nil => intro p hp; cases hp
  | cons q rest ih =>
    intro p hp
    rw [lookupName] at h
    by_cases hq : q.1 = k
    · simp [hq] at h
    · rcases List.mem_cons.mp hp with h1 | h1
      · rw [h1]; exact hq
      · exact ih (by simpa [hq] using h) p h1

theorem lookupName_map_val {α β : Type} (n : String) (g : String → α → β) :
    ∀ (l : List (String × α)) (a : α), lookupName n l = some a →
      lookupName n (l.map fun p => (p.1, g p.1 p.2)) = some (g n a) := by
  intro l
  induction l with
  | nil => intro a h; cases h
  | cons q rest ih =>
    intro a h
    by_cases hq : q.1 = n
    · simp only [lookupName, hq, if_true, Option.some.injEq] at h
      simp [lookupName, hq, ← h]
    · simp only [lookupName, hq, if_false] at h
      simpa [lookupName, hq] using ih a h

theorem resolveOptions_ok_iff (ss : List SourceMap) :
    ∀ (os : OptionSet) (snap : ConfigurationSnapshot),
      resolveOptions ss os = Except.ok snap →
      snap = resolvedSnapshot os ss ∧
        ∀ p ∈ os, p.2.validator (resolvedValue ss p.1 p.2) = true := by
  intro os
  induction os with
  | nil =>
    intro snap h
    rw [resolveOptions] at h
    simp only [Except.ok.injEq] at h
    refine ⟨h.symm ▸ rfl, ?_⟩
    intro p hp; cases hp
  | cons q rest ih =>
    intro snap h
    rcases q with ⟨n, o⟩
    rw [resolveOptions] at h
    by_cases hv : o.validator (resolvedValue ss n o) = true
    · simp only [hv, if_true] at h
      rcases hrec : resolveOptions ss rest with e | snap2
      · rw [hrec] at h; cases h
      · rw [hrec] at h
        simp only [Except.ok.injEq] at h
        rcases ih snap2 hrec with ⟨hsnap2, hval⟩
        constructor
        · rw [← h, hsnap2]; rfl
        · intro p hp
          rcases List.mem_cons.mp hp with h1 | h1
          · rw [h1]; exact hv
          · exact hval p h1
    · simp only [Bool.not_eq_true] at hv
      simp [hv] at h

theorem resolveOptions_ok_of_valid (ss : List SourceMap) :
    ∀ os : OptionSet,
      (∀ p ∈ os, p.2.validator (resolvedValue ss p.1 p.2) = true) →
      resolveOptions ss os = Except.ok (resolvedSnapshot os ss) := by
  intro os
  induction os with
  | nil => intro _; rfl
  | cons q rest ih =>
    intro hval
    rcases q with ⟨n, o⟩
    have hv : o.validator (resolvedValue ss n o) = true :=
      hval (n, o) (List.mem_cons_self _ _)
    rw [resolveOptions]
    simp only [hv, if_true]
    rw [ih (fun p hp => hval p (List.mem_cons_of_mem _ hp))]
    rfl

theorem resolveOptions_congr (ss1 ss2 : List SourceMap) :
    ∀ os : OptionSet,
      (∀ p ∈ os, resolvedValue ss1 p.1 p.2 = resolvedValue ss2 p.1 p.2) →
      resolveOptions ss1 os = resolveOptions ss2 os := by
  intro os
  induction os with
  | nil => intro _; rfl
  | cons q rest ih =>
    intro h
    rcases q with ⟨n, o⟩
    have hn : resolvedValue ss1 n o = resolvedValue ss2 n o :=
      h (n, o) (List.mem_cons_self _ _)
    rw [resolveOptions, resolveOptions, hn,
      ih (fun p hp => h p (List.mem_cons_of_mem _ hp))]

theorem find_congr {α : Type} (p q : α → Bool) :
    ∀ l : List α, (∀ x ∈ l, p x = q x) → l.find? p = l.find? q := by
  intro l
  induction l with
  | nil => intro _; rfl
  | cons a rest ih =>
    intro h
    have ha : p a = q a := h a (List.mem_cons_self _ _)
    rw [List.find?, List.find?, ha, ih (fun x hx => h x (List.mem_cons_of_mem _ hx))]

theorem resolve_ok_inv (os : OptionSet) (excl : List (String × String))
    (srcs : List OverrideSource) (snap : ConfigurationSnapshot)
    (ws : List UnknownOptionWarning)
    (h : resolve os excl srcs = Except.ok (snap, ws)) :
    excl.find? (exclusionViolated (srcs.map fetch)) = none ∧
      resolveOptions (srcs.map fetch) os = Except.ok snap ∧
      ws = unknownWarnings os (srcs.map fetch) := by
  rw [resolve, resolveMaps] at h
  rcases hf : excl.find? (exclusionViolated (srcs.map fetch)) with _ | q
  · rw [hf] at h
    rcases hr : resolveOptions (srcs.map fetch) os with e | snap2
    · rw [hr] at h; cases h
    · rw [hr] at h
      simp only [Except.ok.injEq, Prod.mk.injEq] at h
      exact ⟨rfl, by rw [h.1], h.2.symm⟩
  · rw [hf] at h; cases h

theorem lookupOverride_append (n : String) :
    ∀ a b : List SourceMap,
      lookupOverride n (a ++ b) =
        match lookupOverride n b with
        | some v => some v
        | none => lookupOverride n a := by
  intro a b
  induction a with
  | nil =>
    rcases hb : lookupOverride n b with _ | v <;> simp [lookupOverride, hb]
  | cons s rest ih =>
    rw [List.cons_append, lookupOverride, ih, lookupOverride]
    rcases hb : lookupOverride n b with _ | v
    · rfl
    · rfl

theorem lookupOverride_eq_none_of_all (n : String) :
    ∀ b : List SourceMap, (∀ t ∈ b, lookupName n t = none) →
      lookupOverride n b = none := by
  intro b
  induction b with
  | nil => intro _; rfl
  | cons s rest ih =>
    intro h
    rw [lookupOverride, ih (fun t ht => h t (List.mem_cons_of_mem _ ht))]
    exact h s (List.mem_cons_self _ _)

theorem sourceKeys_append : ∀ a b : List SourceMap,
    sourceKeys (a ++ b) = sourceKeys a ++ sourceKeys b := by
  intro a b
  induction a with
  | nil => rfl
  | cons s rest ih => rw [List.cons_append, sourceKeys, sourceKeys, ih, List.append_assoc]

theorem lookupOverride_skip_empty (n : String) (a b : List SourceMap) :
    lookupOverride n (a ++ [] :: b) = lookupOverride n (a ++ b) := by
  rw [lookupOverride_append, lookupOverride_append]
  have hb : lookupOverride n ([] :: b) = lookupOverride n b := by
    rw [lookupOverride]
    rcases hb : lookupOverride n b with _ | v
    · rfl
    · rfl
  rw [hb]

theorem resolveMaps_congr (os : OptionSet) (excl : List (String × String))
    (ss1 ss2 : List SourceMap)
    (hov : ∀ n, lookupOverride n ss1 = lookupOverride n ss2)
    (hkeys : sourceKeys ss1 = sourceKeys ss2) :
    resolveMaps os excl ss1 = resolveMaps os excl ss2 := by
  have hex : ∀ q : String × String,
      exclusionViolated ss1 q = exclusionViolated ss2 q := by
    intro q; rw [exclusionViolated, exclusionViolated, hov q.1, hov q.2]
  have hrv : ∀ (n : String) (o : ConfigOption),
      resolvedValue ss1 n o = resolvedValue ss2 n o := by
    intro n o; rw [resolvedValue, resolvedValue, hov n]
  have hfind : excl.find? (exclusionViolated ss1) = excl.find? (exclusionViolated ss2) :=
    find_congr (exclusionViolated ss1) (exclusionViolated ss2) excl (fun q _ => hex q)
  have hro : resolveOptions ss1 os = resolveOptions ss2 os :=
    resolveOptions_congr ss1 ss2 os (fun p _ => hrv p.1 p.2)
  have hw : unknownWarnings os ss1 = unknownWarnings os ss2 := by
    rw [unknownWarnings, unknownWarnings, hkeys]
  rcases hf2 : excl.find? (exclusionViolated ss2) with _ | q
  · have hf1 : excl.find? (exclusionViolated ss1) = none := by rw [hfind, hf2]
    simp only [resolveMaps, hf1, hf2, hro, hw]
  · have hf1 : excl.find? (exclusionViolated ss1) = some q := by rw [hfind, hf2]
    simp only [resolveMaps, hf1, hf2, hov q.1]

theorem count_one_of_nodup_mem {α : Type} [DecidableEq α] (a : α) :
    ∀ l : List α, l.Nodup → a ∈ l → l.count a = 1 := by
  intro l
  induction l with
  | nil => intro _ h; cases h
  | cons b rest ih =>
    intro hnd hmem
    rcases List.mem_cons.mp hmem with h1 | h1
    · rw [h1, List.count_cons_self,
        List.count_eq_zero_of_not_mem (h1 ▸ (List.nodup_cons.mp hnd).1)]
    · have hne : a ≠ b := by
        intro he; rw [he] at h1; exact (List.nodup_cons.mp hnd).1 h1
      rw [List.count_cons_of_ne hne, ih (List.nodup_cons.mp hnd).2 h1]

/-! The claims. -/

/-- C1: for every OptionSet and every list of override sources, resolution
either fails as a whole with a `ConfigurationError` (no snapshot is exposed)
or produces a ConfigurationSnapshot in which every option of the OptionSet
has exactly one resolved value (its default or an override) and every
resolved value satisfies that option's validation predicate. -/
theorem resolution_all_or_nothing (os : OptionSet) (excl : List (String × String))
    (srcs : List OverrideSource) :
    (∃ e, resolve os excl srcs = Except.error e) ∨
    (∃ ws, resolve os excl srcs =
        Except.ok (resolvedSnapshot os (srcs.map fetch), ws) ∧
      (resolvedSnapshot os (srcs.map fetch)).map Prod.fst = os.map Prod.fst ∧
      ∀ p ∈ os, p.2.validator (resolvedValue (srcs.map fetch) p.1 p.2) = true) := by
  rcases h : resolve os excl srcs with e | r
  · exact Or.inl ⟨e, rfl⟩
  · rcases r with ⟨snap, ws⟩
    rcases resolve_ok_inv os excl srcs snap ws h with ⟨_, hro, _⟩
    rcases resolveOptions_ok_iff (srcs.map fetch) os snap hro with ⟨hsnap, hval⟩
    refine Or.inr ⟨ws, ?_, ?_, hval⟩
    · rw [hsnap]
    · rw [resolvedSnapshot, List.map_map]
      rfl

/-- C2: every option no override source defines resolves to its declared
default, and resolving with an empty list of override sources (given that
each declared default satisfies its own validator) yields exactly the
all-defaults snapshot with no warnings. -/
theorem defaults_when_not_overridden (os : OptionSet) (excl : List (String × String)) :
    (∀ (srcs : List OverrideSource) (snap : ConfigurationSnapshot)
        (ws : List UnknownOptionWarning),
      resolve os excl srcs = Except.ok (snap, ws) →
      ∀ (n : String) (o : ConfigOption), lookupName n os = some o →
        lookupOverride n (srcs.map fetch) = none →
        lookupName n snap = some o.default) ∧
    ((∀ p ∈ os, p.2.validator p.2.default = true) →
      resolve os excl [] = Except.ok (defaultsSnapshot os, [])) := by
  constructor
  · intro srcs snap ws h n o ho hnone
    rcases resolve_ok_inv os excl srcs snap ws h with ⟨_, hro, _⟩
    rcases resolveOptions_ok_iff (srcs.map fetch) os snap hro with ⟨hsnap, _⟩
    have h2 := lookupName_map_val n
      (fun m o2 => resolvedValue (srcs.map fetch) m o2) os o ho
    have h3 : resolvedValue (srcs.map fetch) n o = o.default := by
      rw [resolvedValue, hnone]
    rw [hsnap]
    show lookupName n (resolvedSnapshot os (srcs.map fetch)) = some o.default
    rw [← h3]
    exact h2
  · intro hval
    have hfind : excl.find? (exclusionViolated []) = none := by
      apply List.find?_eq_none.mpr
      intro q hq
      simp [exclusionViolated, lookupOverride]
    have hro : resolveOptions [] os = Except.ok (resolvedSnapshot os []) :=
      resolveOptions_ok_of_valid [] os (fun p hp => hval p hp)
    show resolveMaps os excl [] = Except.ok (defaultsSnapshot os, [])
    rw [resolveMaps, hfind, hro]
    rfl

/-- Closed instance discharging the hypotheses of `defaults_when_not_overridden`:
the recognized OptionSet resolves to its all-defaults snapshot from an empty
source list, and the unoverridden `token` option resolves to its default from
the shipped configuration file. -/
theorem defaults_when_not_overridden_witness :
    resolve recognizedOptions authExclusive [] =
      Except.ok (defaultsSnapshot recognizedOptions, []) ∧
    lookupName "token" (resolvedSnapshot recognizedOptions [shippedConfig]) =
      some (Value.VStr "") := by
  constructor
  · exact (defaults_when_not_overridden recognizedOptions authExclusive).2 (by decide)
  · exact (defaults_when_not_overridden recognizedOptions authExclusive).1
      [some shippedConfig] (resolvedSnapshot recognizedOptions [shippedConfig]) []
      rfl "token" ⟨Value.VStr "", isStrVal, "string"⟩ rfl rfl

/-- C3: for an option name defined by an override source, with no
higher-precedence (later) source defining it, the resolved value in the
snapshot is exactly that source's value — lower-precedence values and the
default are discarded. -/
theorem highest_precedence_source_wins (os : OptionSet)
    (excl : List (String × String)) (pre post : List OverrideSource)
    (s : SourceMap) (n : String) (o : ConfigOption) (v : Value)
    (snap : ConfigurationSnapshot) (ws : List UnknownOptionWarning)
    (hok : resolve os excl (pre ++ some s :: post) = Except.ok (snap, ws))
    (ho : lookupName n os = some o)
    (hs : lookupName n s = some v)
    (hpost : ∀ t ∈ post, lookupName n (fetch t) = none) :
    lookupName n snap = some v := by
  rcases resolve_ok_inv os excl (pre ++ some s :: post) snap ws hok with ⟨_, hro, _⟩
  rcases resolveOptions_ok_iff _ os snap hro with ⟨hsnap, _⟩
  have hmap : (pre ++ some s :: post).map fetch =
      pre.map fetch ++ s :: post.map fetch := by
    rw [List.map_append, List.map_cons]; rfl
  have hpost2 : lookupOverride n (post.map fetch) = none := by
    apply lookupOverride_eq_none_of_all
    intro t ht
    rcases List.mem_map.mp ht with ⟨u, hu, hut⟩
    rw [← hut]; exact hpost u hu
  have hcons : lookupOverride n (s :: post.map fetch) = some v := by
    rw [lookupOverride, hpost2, hs]
  have hov : lookupOverride n ((pre ++ some s :: post).map fetch) = some v := by
    rw [hmap, lookupOverride_append n (pre.map fetch) (s :: post.map fetch), hcons]
  have h3 : resolvedValue ((pre ++ some s :: post).map fetch) n o = v := by
    rw [resolvedValue, hov]
  have h2 := lookupName_map_val n
    (fun m o2 => resolvedValue ((pre ++ some s :: post).map fetch) m o2) os o ho
  rw [hsnap]
  show lookupName n (resolvedSnapshot os ((pre ++ some s :: post).map fetch)) = some v
  rw [← h3]
  exact h2

/-- Closed instance discharging the hypotheses of
`highest_precedence_source_wins`: with two sources both setting
`open_browser`, the later (higher-precedence) source's value `false` is the
resolved one. -/
theorem highest_precedence_source_wins_witness :
    lookupName "open_browser"
      (resolvedSnapshot recognizedOptions
        [[("open_browser", Value.VBool true)],
         [("open_browser", Value.VBool false)]]) =
      some (Value.VBool false) :=
  highest_precedence_source_wins recognizedOptions authExclusive
    [some [("open_browser", Value.VBool true)]] []
    [("open_browser", Value.VBool false)] "open_browser"
    ⟨Value.VBool true, isBoolVal, "boolean"⟩ (Value.VBool false)
    (resolvedSnapshot recognizedOptions
      [[("open_browser", Value.VBool true)],
       [("open_browser", Value.VBool false)]])
    [] rfl rfl rfl (by intro t ht; cases ht)

/-- C4: overriding `port` with 70000 fails with a ConfigurationError naming
the option, the value, and the 1–65535 range constraint; overriding it with
8888 succeeds and the snapshot holds 8888. -/
theorem port_range_validated :
    resolve recognizedOptions authExclusive [some [("port", Value.VInt 70000)]] =
      Except.error ⟨"port", Value.VInt 70000, "range 1-65535"⟩ ∧
    resolve recognizedOptions authExclusive [some [("port", Value.VInt 8888)]] =
      Except.ok (resolvedSnapshot recognizedOptions [[("port", Value.VInt 8888)]], []) ∧
    lookupName "port" (resolvedSnapshot recognizedOptions [[("port", Value.VInt 8888)]]) =
      some (Value.VInt 8888) :=
  ⟨rfl, rfl, rfl⟩

/-- C5: overriding `log_level` with the string VERBOSE fails with a
ConfigurationError because VERBOSE is not one of DEBUG, INFO, WARNING, ERROR,
CRITICAL, while overriding it with INFO succeeds and the snapshot holds the
string INFO unchanged. -/
theorem log_level_enum_validated :
    resolve recognizedOptions authExclusive
        [some [("log_level", Value.VStr "VERBOSE")]] =
      Except.error ⟨"log_level", Value.VStr "VERBOSE",
        "one of DEBUG INFO WARNING ERROR CRITICAL"⟩ ∧
    resolve recognizedOptions authExclusive
        [some [("log_level", Value.VStr "INFO")]] =
      Except.ok (resolvedSnapshot recognizedOptions
        [[("log_level", Value.VStr "INFO")]], []) ∧
    lookupName "log_level"
        (resolvedSnapshot recognizedOptions [[("log_level", Value.VStr "INFO")]]) =
      some (Value.VStr "INFO") :=
  ⟨rfl, rfl, rfl⟩

/-- C6: adding an entry with an unrecognized key to an otherwise resolvable
override source never aborts resolution: the snapshot is unchanged and the
warning list counts exactly one `UnknownOptionWarning` for that key. -/
theorem unknown_key_warns_not_aborts (os : OptionSet)
    (excl : List (String × String)) (s : SourceMap) (k : String) (v : Value)
    (snap : ConfigurationSnapshot) (ws : List UnknownOptionWarning)
    (hk : lookupName k os = none)
    (hex : ∀ q ∈ excl, q.1 ≠ k ∧ q.2 ≠ k)
    (hok : resolve os excl [some s] = Except.ok (snap, ws)) :
    resolve os excl [some ((k, v) :: s)] =
      Except.ok (snap, unknownWarnings os [(k, v) :: s]) ∧
    (unknownWarnings os [(k, v) :: s]).count ⟨k⟩ = 1 := by
  rcases resolve_ok_inv os excl [some s] snap ws hok with ⟨hfind, hro, _⟩
  have hname : ∀ p ∈ os, p.1 ≠ k := lookupName_eq_none_forall k os hk
  have hov : ∀ n : String, n ≠ k →
      lookupOverride n [(k, v) :: s] = lookupOverride n [s] := by
    intro n hn
    simp only [lookupOverride, lookupName]
    rw [if_neg (fun h => hn h.symm)]
  have hrv2 : ∀ p ∈ os,
      resolvedValue [(k, v) :: s] p.1 p.2 = resolvedValue [s] p.1 p.2 := by
    intro p hp
    rw [resolvedValue, resolvedValue, hov p.1 (hname p hp)]
  have hro2 : resolveOptions [(k, v) :: s] os = Except.ok snap := by
    rw [resolveOptions_congr [(k, v) :: s] [s] os hrv2]
    exact hro
  have hexv : ∀ q ∈ excl,
      exclusionViolated [(k, v) :: s] q = exclusionViolated [s] q := by
    intro q hq
    rw [exclusionViolated, exclusionViolated,
      hov q.1 (hex q hq).1, hov q.2 (hex q hq).2]
  have hfind2 : excl.find? (exclusionViolated [(k, v) :: s]) = none := by
    rw [find_congr _ _ excl hexv]
    exact hfind
  constructor
  · show resolveMaps os excl [(k, v) :: s] = _
    rw [resolveMaps, hfind2, hro2]
  · rw [unknownWarnings]
    have hkeys : sourceKeys [(k, v) :: s] = k :: s.map Prod.fst := by
      rw [sourceKeys, sourceKeys]
      simp
    rw [hkeys]
    have hnd : ((k :: s.map Prod.fst).dedup.filter
        (fun k2 => (lookupName k2 os).isNone)).Nodup :=
      (List.nodup_dedup (k :: s.map Prod.fst)).filter _
    have hmem : k ∈ (k :: s.map Prod.fst).dedup.filter
        (fun k2 => (lookupName k2 os).isNone) := by
      rw [List.mem_filter]
      refine ⟨List.mem_dedup.mpr (List.mem_cons_self _ _), ?_⟩
      rw [hk]; rfl
    have hinj : Function.Injective
        (fun k2 : String => (⟨k2⟩ : UnknownOptionWarning)) := by
      intro a b h
      injection h
    exact count_one_of_nodup_mem _ _ (hnd.map hinj)
      (List.mem_map_of_mem _ hmem)

/-- Closed instance discharging the hypotheses of
`unknown_key_warns_not_aborts`: the unrecognized key `foo_bar` alongside a
valid `open_browser` entry yields the same successful snapshot plus exactly
one warning for `foo_bar`. -/
theorem unknown_key_warns_not_aborts_witness :
    resolve recognizedOptions authExclusive
        [some [("foo_bar", Value.VInt 1), ("open_browser", Value.VBool false)]] =
      Except.ok
        (resolvedSnapshot recognizedOptions [[("open_browser", Value.VBool false)]],
         unknownWarnings recognizedOptions
           [[("foo_bar", Value.VInt 1), ("open_browser", Value.VBool false)]]) ∧
    (unknownWarnings recognizedOptions
        [[("foo_bar", Value.VInt 1), ("open_browser", Value.VBool false)]]).count
      ⟨"foo_bar"⟩ = 1 :=
  unknown_key_warns_not_aborts recognizedOptions authExclusive
    [("open_browser", Value.VBool false)] "foo_bar" (Value.VInt 1)
    (resolvedSnapshot recognizedOptions [[("open_browser", Value.VBool false)]])
    [] rfl (by decide) rfl

/-- C7: a missing override source is not an error — resolving with an absent
source anywhere in the ordered list is the same as resolving with that source
removed, i.e. the absent source defines no options and resolution falls back
to lower-precedence sources or the defaults. -/
theorem missing_source_defines_nothing (os : OptionSet)
    (excl : List (String × String)) (pre post : List OverrideSource) :
    resolve os excl (pre ++ none :: post) = resolve os excl (pre ++ post) := by
  rw [resolve, resolve]
  have hmap1 : (pre ++ none :: post).map fetch =
      pre.map fetch ++ [] :: post.map fetch := by
    rw [List.map_append, List.map_cons]; rfl
  have hmap2 : (pre ++ post).map fetch = pre.map fetch ++ post.map fetch := by
    rw [List.map_append]
  rw [hmap1, hmap2]
  apply resolveMaps_congr
  · intro n
    exact lookupOverride_skip_empty n (pre.map fetch) (post.map fetch)
  · rw [sourceKeys_append, sourceKeys_append, sourceKeys]
    rfl

/-- C8: resolution is deterministic and idempotent — two runs of the resolver
on identical inputs that both succeed produce snapshots with identical
resolved values for every option name. -/
theorem resolution_idempotent (os : OptionSet) (excl : List (String × String))
    (srcs : List OverrideSource) (snap1 snap2 : ConfigurationSnapshot)
    (ws1 ws2 : List UnknownOptionWarning)
    (h1 : resolve os excl srcs = Except.ok (snap1, ws1))
    (h2 : resolve os excl srcs = Except.ok (snap2, ws2)) :
    ∀ n : String, lookupName n snap1 = lookupName n snap2 := by
  intro n
  have h := h1.symm.trans h2
  simp only [Except.ok.injEq, Prod.mk.injEq] at h
  rw [h.1]

/-- Closed instance discharging the hypotheses of `resolution_idempotent`:
two runs on the shipped configuration agree on the resolved `port`. -/
theorem resolution_idempotent_witness :
    lookupName "port" (resolvedSnapshot recognizedOptions [shippedConfig]) =
      lookupName "port" (resolvedSnapshot recognizedOptions [shippedConfig]) :=
  resolution_idempotent recognizedOptions authExclusive [some shippedConfig]
    (resolvedSnapshot recognizedOptions [shippedConfig])
    (resolvedSnapshot recognizedOptions [shippedConfig]) [] [] rfl rfl "port"

/-- C9: every value assigned in the shipped configuration file satisfies its
option's validator, so resolving the recognized OptionSet with the shipped
file as sole override source succeeds with a fully populated snapshot (one
entry per declared option) and no warnings — the ConfigurationError branch is
never reached. -/
theorem shipped_config_resolves :
    (shippedConfig.all fun p =>
      match lookupName p.1 recognizedOptions with
      | some o => o.validator p.2
      | none => false) = true ∧
    resolve recognizedOptions authExclusive [some shippedConfig] =
      Except.ok (resolvedSnapshot recognizedOptions [shippedConfig], []) ∧
    (resolvedSnapshot recognizedOptions [shippedConfig]).map Prod.fst =
      recognizedOptions.map Prod.fst :=
  ⟨rfl, rfl, rfl⟩

/-- C10: the shipped configuration file assigns neither `token` nor
`password`, so with it as the only override source the mutually-exclusive
check on the authentication secret finds no violation and both options
resolve to their declared defaults (the empty string, i.e. the default token
flow). -/
theorem shipped_config_auth_defaults :
    lookupName "token" shippedConfig = none ∧
    lookupName "password" shippedConfig = none ∧
    authExclusive.find? (exclusionViolated [shippedConfig]) = none ∧
    lookupName "token" (resolvedSnapshot recognizedOptions [shippedConfig]) =
      (lookupName "token" recognizedOptions).map ConfigOption.default ∧
    lookupName "password" (resolvedSnapshot recognizedOptions [shippedConfig]) =
      (lookupName "password" recognizedOptions).map ConfigOption.default ∧
    lookupName "token" (resolvedSnapshot recognizedOptions [shippedConfig]) =
      some (Value.VStr "") :=
  ⟨rfl, rfl, rfl, rfl, rfl, rfl⟩

end SettingsResolver
